import Mathlib

/-!
# Verification of the hedera-dex-agent event-decoding pipeline

Shallow embedding of the pool-listing / pool-lookup code of the repository
`cuongpo/hedera-dex-agent`.  Two TypeScript modules implement the pipeline:

* `src/plugin-hedera-dex/src/plugin.ts` — namespace `HederaDex` below
  (actions LIST_POOLS / GET_POOL_INFO, synthetic pool ids, no demo fallback);
* `src/src/plugin.ts` — namespace `SrcPlugin` below
  (action FETCH_ALL_POOLS, demo-mode flag and mock-data fallback).

JavaScript numbers that always hold non-negative integers are modelled as
`Nat`; a number that may be `NaN` (the result of a failed `parseInt`) is
modelled as `Option Nat` with `none` for `NaN`.  The float rounding of
JavaScript numbers above 2^53 is not modelled; every claim is evaluated on
small values only.  Network interaction is made explicit: an HTTP request
either fails (exception in `axios`) or returns a decoded body.
-/

/-! ## Shared helpers: JavaScript string/number primitives -/

/-- Value of one hexadecimal digit (`0-9`, `a-f`, `A-F`), `none` otherwise. -/
def hexDigitVal (c : Char) : Option Nat :=
  if '0' ≤ c ∧ c ≤ '9' then some (c.toNat - '0'.toNat)
  else if 'a' ≤ c ∧ c ≤ 'f' then some (c.toNat - 'a'.toNat + 10)
  else if 'A' ≤ c ∧ c ≤ 'F' then some (c.toNat - 'A'.toNat + 10)
  else none

/-- Value of one decimal digit, `none` otherwise. -/
def decDigitVal (c : Char) : Option Nat :=
  if '0' ≤ c ∧ c ≤ '9' then some (c.toNat - '0'.toNat) else none

/-- Accumulate hexadecimal digits from the front of the list, stopping at the
first character that is not a hexadecimal digit (the way `parseInt` consumes
its input). -/
def parseHexDigits : List Char → Nat → Nat
  | [], acc => acc
  | c :: rest, acc =>
    match hexDigitVal c with
    | some d => parseHexDigits rest (16 * acc + d)
    | none => acc

/-- Accumulate decimal digits from the front of the list, stopping at the
first non-digit. -/
def parseDecDigits : List Char → Nat → Nat
  | [], acc => acc
  | c :: rest, acc =>
    match decDigitVal c with
    | some d => parseDecDigits rest (10 * acc + d)
    | none => acc

/-- Strip an optional `0x` / `0X` prefix, the way `parseInt(s, 16)` does. -/
def strip0xPrefixJS (l : List Char) : List Char :=
  match l with
  | c1 :: c2 :: r => if c1 = '0' ∧ (c2 = 'x' ∨ c2 = 'X') then r else l
  | _ => l

/-- `parseInt(s, 16)` on a list of characters: optional `0x`/`0X` prefix, then
the longest prefix of hexadecimal digits; `none` models `NaN` (no digit at
all).  Leading whitespace and signs are not modelled — no call site receives
them. -/
def parseIntHex (l : List Char) : Option Nat :=
  let l2 := strip0xPrefixJS l
  match l2 with
  | [] => none
  | c :: _ => if (hexDigitVal c).isSome then some (parseHexDigits l2 0) else none

/-- `parseInt(s)` with no radix argument and a decimal-looking input: longest
prefix of decimal digits, `none` for `NaN`. -/
def parseIntDec (l : List Char) : Option Nat :=
  match l with
  | [] => none
  | c :: _ => if (decDigitVal c).isSome then some (parseDecDigits l 0) else none

/-- `parseInt(s)` with no radix: radix 16 is auto-detected on a `0x`/`0X`
prefix, otherwise decimal. -/
def parseIntJS (l : List Char) : Option Nat :=
  match l with
  | '0' :: 'x' :: r =>
    (match r with
     | [] => none
     | c :: _ => if (hexDigitVal c).isSome then some (parseHexDigits r 0) else none)
  | '0' :: 'X' :: r =>
    (match r with
     | [] => none
     | c :: _ => if (hexDigitVal c).isSome then some (parseHexDigits r 0) else none)
  | _ => parseIntDec l

/-- Remove the first occurrence of the substring `0x` (lowercase, the way
`hex.replace('0x', '')` does); the list is returned unchanged when `0x` does
not occur. -/
def replaceFirst0x : List Char → List Char
  | [] => []
  | [c] => [c]
  | c1 :: c2 :: rest =>
    if c1 = '0' ∧ c2 = 'x' then rest else c1 :: replaceFirst0x (c2 :: rest)

/-- `s.slice(-n)` on a list of characters: the last `n` characters, or the
whole list when it is shorter than `n`. -/
def lastChars (n : Nat) (l : List Char) : List Char :=
  l.drop (l.length - n)

/-- The character for a decimal digit. -/
def digitChar (d : Nat) : Char := Char.ofNat (48 + d)

/-- Fuelled digit production for `natToString`; fuel `n + 1` always
suffices. -/
def natToStringCore : Nat → Nat → List Char → List Char
  | 0, _, acc => acc
  | fuel + 1, n, acc =>
    if n < 10 then digitChar n :: acc
    else natToStringCore fuel (n / 10) (digitChar (n % 10) :: acc)

/-- JavaScript template interpolation `${n}` of a non-negative integer:
its decimal digit string. -/
def natToString (n : Nat) : String :=
  String.mk (natToStringCore (n + 1) n [])

/-- Remove an optional `0x` prefix (lowercase, at the front only).  Used to
state which characters of an input the decoder depends on. -/
def stripHexPrefix (l : List Char) : List Char :=
  match l with
  | c1 :: c2 :: r => if c1 = '0' ∧ c2 = 'x' then r else l
  | _ => l

/-- ASCII uppercase of one character, as `toUpperCase` maps it.  Token
symbols are ASCII; the Unicode cases of the JavaScript method are not
modelled. -/
def jsUpperChar (c : Char) : Char :=
  if 'a' ≤ c ∧ c ≤ 'z' then Char.ofNat (c.toNat - 32) else c

/-- `s.toUpperCase()` for ASCII strings. -/
def jsToUpperCase (s : String) : String :=
  String.mk (s.toList.map jsUpperChar)

/-- Worker for `jsSplitDot`: accumulate the current field (reversed) and cut
at every dot. -/
def splitDotAux : List Char → List Char → List String
  | [], cur => [String.mk cur.reverse]
  | c :: rest, cur =>
    if c = '.' then String.mk cur.reverse :: splitDotAux rest []
    else splitDotAux rest (c :: cur)

/-- JavaScript `s.split('.')`. -/
def jsSplitDot (s : String) : List String :=
  splitDotAux s.toList []

/-- JavaScript `a || b` for an optional string `a`: `undefined` and the empty
string are falsy. -/
def jsOrStr (a : Option String) (b : String) : String :=
  match a with
  | some s => if s = "" then b else s
  | none => b

/-- JavaScript `a || b` for an optional number `a`: `undefined` and `0` are
falsy. -/
def jsOrNat (a : Option Nat) (b : Nat) : Nat :=
  match a with
  | some n => if n = 0 then b else n
  | none => b

/-! ## Shared data: raw logs, remote token payloads, network outcomes -/

/-- One raw contract event-log entry as returned by the mirror node:
`{ topics: string[], data: string }`. -/
structure RawLog where
  topics : List String
  data : String
deriving DecidableEq

/-- The `PoolCreated` event signature both modules compare `topics[0]`
against. -/
def POOL_CREATED_TOPIC : String :=
  "0x783cca1c0412dd0d695e784568c96da2e9c22ff989357a2e8b1d9b2b4e6b7118"

/-- The fields of the mirror-node `GET /api/v1/tokens/{id}` response body that
the two `fetchTokenInfo` implementations read.  Every field may be absent. -/
structure TokenPayload where
  decimals : Option Nat
  name : Option String
  symbol : Option String
  token_id : Option String
  memo : Option String
deriving DecidableEq

/-- Outcome of the `axios.get(...)` fetching the factory contract's logs:
either the request throws, or it yields a decoded `logs` array. -/
inductive FetchOutcome where
  | failure : FetchOutcome
  | success : List RawLog → FetchOutcome
deriving DecidableEq

/-! ## `src/plugin-hedera-dex/src/plugin.ts` -/

namespace HederaDex

/-- The `ApiToken` record built by `fetchTokenInfo`.  The constant fields
`priceUsd` (a float, always 0), `dueDiligenceComplete`,
`isFeeOnTransferToken`, `timestampSecondsLastListingChange`, `website`,
`twitterHandle`, `sentinelReport` are omitted; no claim mentions them. -/
structure ApiToken where
  decimals : Nat
  id : String
  name : String
  price : String
  symbol : String
  description : Option String
deriving DecidableEq

/-- The `ApiLiquidityPoolV2` record assembled by `parsePoolCreationEvents`.
`fee` is `Option Nat` because `parseInt(log.topics[3], 16)` can be `NaN`. -/
structure ApiLiquidityPoolV2 where
  id : Nat
  contractId : String
  tokenA : ApiToken
  amountA : String
  tokenB : ApiToken
  amountB : String
  fee : Option Nat
  sqrtRatioX96 : String
  tickCurrent : Int
  liquidity : String
deriving DecidableEq

/-- `hexToHederaId`: remove the first occurrence of `0x`, keep the last 8 hex
characters (4 bytes), parse them with `parseInt(_, 16)`, and reject entity
numbers that are `0` or above `100000000` by returning the sentinel `0.0.0`.
When `parseInt` yields `NaN` the template produces the string `0.0.NaN`. -/
def hexToHederaId (hex : String) : String :=
  let cleanHex := replaceFirst0x hex.toList
  let entityHex := lastChars 8 cleanHex
  match parseIntHex entityHex with
  | none => "0.0.NaN"
  | some entityNum =>
    if entityNum = 0 ∨ entityNum > 100000000 then "0.0.0"
    else "0.0." ++ natToString entityNum

/-- `extractPoolContractId`: a synthetic pool id from the two decoded token
ids, `Math.abs(token0Num + token1Num + 1000000)`.  The event data argument is
unused in the source body as well.  `Math.abs` is the identity on the sum of
two naturals; a `NaN` from `parseInt` propagates through `+` and `Math.abs`
and the template then prints `0.0.NaN` (the `try/catch` never fires, since
`split` and `parseInt` do not throw). -/
def extractPoolContractId (_eventData : String) (token0Id token1Id : String) : String :=
  let token0Num := parseIntJS ((jsSplitDot token0Id).getD 2 "").toList
  let token1Num := parseIntJS ((jsSplitDot token1Id).getD 2 "").toList
  match token0Num, token1Num with
  | some n0, some n1 => "0.0." ++ natToString (n0 + n1 + 1000000)
  | _, _ => "0.0.NaN"

/-- `fetchTokenInfo`: `none` models the request throwing (caught, returns
`null`); on a 200 response the fields are filled from the payload with the
`||` defaults of the source. -/
def fetchTokenInfo (tokenId : String) (response : Option TokenPayload) : Option ApiToken :=
  match response with
  | none => none
  | some token =>
    some { decimals := jsOrNat token.decimals 8
           id := tokenId
           name := jsOrStr token.name "Unknown Token"
           price := "0"
           symbol := jsOrStr token.symbol "UNKNOWN"
           description := none }

/-- The body of the `for` loop of `parsePoolCreationEvents`, acting on the
accumulated pool list.  `ft` is the token-metadata fetch
(`fetchTokenInfo (·, mirrorNodeUrl)` with the network abstracted): `none`
models a failed fetch.  An entry is processed only when `topics[0]` equals
the pool-created signature and there are at least four topics; a candidate
with a sentinel `0.0.0` id is skipped with a warning; a candidate with a
failed token fetch is skipped; otherwise a pool record is appended. -/
def processLog (ft : String → Option ApiToken) (pools : List ApiLiquidityPoolV2)
    (log : RawLog) : List ApiLiquidityPoolV2 :=
  if log.topics.head? = some POOL_CREATED_TOPIC ∧ 4 ≤ log.topics.length then
    let token0Id := hexToHederaId (log.topics.getD 1 "")
    let token1Id := hexToHederaId (log.topics.getD 2 "")
    let fee := parseIntHex (log.topics.getD 3 "").toList
    let poolId := extractPoolContractId log.data token0Id token1Id
    if token0Id = "0.0.0" ∨ token1Id = "0.0.0" ∨ poolId = "0.0.0" then pools
    else
      match ft token0Id, ft token1Id with
      | some tokenA, some tokenB =>
        pools ++ [{ id := pools.length + 1
                    contractId := poolId
                    tokenA := tokenA
                    amountA := "0"
                    tokenB := tokenB
                    amountB := "0"
                    fee := fee
                    sqrtRatioX96 := "79228162514264337593543950336"
                    tickCurrent := 0
                    liquidity := "Available" }]
      | _, _ => pools
  else pools

/-- `parsePoolCreationEvents(logs, mirrorNodeUrl)`. -/
def parsePoolCreationEvents (logs : List RawLog) (ft : String → Option ApiToken) :
    List ApiLiquidityPoolV2 :=
  logs.foldl (processLog ft) []

/-- The `CONTRACT_ADDRESSES` table: `(factory, mirrorNode)` per network;
`none` for any other key (`undefined` in JavaScript). -/
def contractAddresses (network : String) : Option (String × String) :=
  if network = "mainnet" then
    some ("0.0.3946833", "https://mainnet-public.mirrornode.hedera.com")
  else if network = "testnet" then
    some ("0.0.1197038", "https://testnet.mirrornode.hedera.com")
  else none

/-- The observable outcome of the LIST_POOLS handler: the `success` flag, the
`data.pools` array (absent on the error path), `data.totalPools`,
`data.dataSource`, and the `values.error` tag of the error path.  The
human-readable `text` is not modelled. -/
structure ActionRunResult where
  success : Bool
  pools : Option (List ApiLiquidityPoolV2)
  totalPools : Option Nat
  dataSource : Option String
  errorTag : Option String
deriving DecidableEq

/-- The `ActionResult` produced by the outer `catch` of the LIST_POOLS
handler: `success: false`, `values.error = 'FETCH_POOLS_FAILED'`, and no
pools or data source in `data`. -/
def errorResult : ActionRunResult :=
  { success := false, pools := none, totalPools := none
    dataSource := none, errorTag := some "FETCH_POOLS_FAILED" }

/-- The LIST_POOLS handler of `plugin-hedera-dex`.  Inputs: the three
settings the plugin recognises (`HEDERA_NETWORK`, `HEDERA_MIRROR_NODE_URL`,
`DEMO_MODE`; the handler body never reads `DEMO_MODE`), the outcome of the
log fetch, and the token-metadata fetch.  Every `throw` in the body lands in
the outer `catch`, which returns `errorResult`; in particular a log-fetch
failure is logged and rethrown (`throw error`), not replaced by fallback
data. -/
def listPoolsAction_run (networkSetting mirrorUrlSetting _demoModeSetting : Option String)
    (logFetch : FetchOutcome) (ft : String → Option ApiToken) : ActionRunResult :=
  let network := networkSetting.getD "mainnet"
  match mirrorUrlSetting.orElse (fun _ => (contractAddresses network).map Prod.snd) with
  | none => errorResult
  | some mirrorNodeUrl =>
    match (contractAddresses network).map Prod.fst with
    | none => errorResult
    | some _factoryContract =>
      match logFetch with
      | FetchOutcome.failure => errorResult
      | FetchOutcome.success logs =>
        let pools := parsePoolCreationEvents logs ft
        if pools.length = 0 then errorResult
        else
          { success := true
            pools := some (pools.take 20)
            totalPools := some pools.length
            dataSource := some ("Hedera Mirror Node (" ++ mirrorNodeUrl ++ ") - "
              ++ natToString pools.length ++ " pools from contract events")
            errorTag := none }

/-- The pool filter of the GET_POOL_INFO handler: keep the pools whose
uppercased symbols match the requested (already uppercased) pair in either
order. -/
def matchingPools (allPools : List ApiLiquidityPoolV2)
    (normalizedToken0 normalizedToken1 : String) : List ApiLiquidityPoolV2 :=
  allPools.filter (fun pool =>
    let poolToken0 := jsToUpperCase pool.tokenA.symbol
    let poolToken1 := jsToUpperCase pool.tokenB.symbol
    (poolToken0 = normalizedToken0 ∧ poolToken1 = normalizedToken1) ∨
    (poolToken0 = normalizedToken1 ∧ poolToken1 = normalizedToken0))

/-- The fee display `(pool.fee / 10_000.0).toFixed(2)` for an integer fee:
the fee in percent rounded to hundredths, printed with exactly two decimal
places.  The float division is exact for every fee value the claims
evaluate. -/
def feeTier (fee : Nat) : String :=
  let h := (fee + 50) / 100
  natToString (h / 100) ++ "." ++
    (if h % 100 < 10 then "0" ++ natToString (h % 100) else natToString (h % 100))

end HederaDex

/-! ## `src/src/plugin.ts` -/

namespace SrcPlugin

/-- The `ApiToken` record built by this module's `fetchTokenInfo`.  Fields
that can be `undefined`/`NaN` in JavaScript are `Option`s.  As in
`HederaDex.ApiToken`, the constant fields unused by every claim are
omitted. -/
structure ApiToken where
  decimals : Option Nat
  id : Option String
  name : Option String
  price : String
  symbol : Option String
  description : Option String
deriving DecidableEq

/-- The `ApiLiquidityPoolV2` record of `src/src/plugin.ts`. -/
structure ApiLiquidityPoolV2 where
  id : Nat
  contractId : String
  tokenA : ApiToken
  amountA : String
  tokenB : ApiToken
  amountB : String
  fee : Option Nat
  sqrtRatioX96 : String
  tickCurrent : Int
  liquidity : String
deriving DecidableEq

/-- This module's `hexToHederaId`: `parseInt(hex, 16)` on the whole string,
then the template `0.0.${decimal}` (`0.0.NaN` when the parse fails). -/
def hexToHederaId (hex : String) : String :=
  match parseIntHex hex.toList with
  | none => "0.0.NaN"
  | some decimal => "0.0." ++ natToString decimal

/-- `a || b` for two optional strings (both may be falsy): the JavaScript
result of `token.name || token.symbol`. -/
def jsOrOptStr (a b : Option String) : Option String :=
  if a = none ∨ a = some "" then b else a

/-- This module's `fetchTokenInfo`: `decimals` is `parseInt(token.decimals)`
(`NaN`, i.e. `none`, when absent), `id` is the payload `token_id`, the name
falls back to the symbol, the description falls back from `memo` to a
synthesized string (`${undefined}` prints `undefined`).  The timestamp field
is omitted (unused by every claim). -/
def fetchTokenInfo (tokenId : String) (response : Option TokenPayload) : Option ApiToken :=
  match response with
  | none => none
  | some token =>
    some { decimals := token.decimals
           id := token.token_id
           name := jsOrOptStr token.name token.symbol
           price := "0"
           symbol := token.symbol
           description := jsOrOptStr token.memo
             (some ((match token.name with | some n => n | none => "undefined")
               ++ " token on Hedera")) }

/-- The body of this module's `parsePoolCreationEvents` loop: same guard as
the `HederaDex` variant, but the pool id is decoded from
`log.data.slice(66, 106)` and there is no sentinel-id skip check. -/
def processLog (ft : String → Option ApiToken) (pools : List ApiLiquidityPoolV2)
    (log : RawLog) : List ApiLiquidityPoolV2 :=
  if log.topics.head? = some POOL_CREATED_TOPIC ∧ 4 ≤ log.topics.length then
    let token0Id := hexToHederaId (log.topics.getD 1 "")
    let token1Id := hexToHederaId (log.topics.getD 2 "")
    let fee := parseIntHex (log.topics.getD 3 "").toList
    let poolAddress := (log.data.toList.drop 66).take 40
    let poolId := hexToHederaId (String.mk ('0' :: 'x' :: poolAddress))
    match ft token0Id, ft token1Id with
    | some tokenA, some tokenB =>
      pools ++ [{ id := pools.length + 1
                  contractId := poolId
                  tokenA := tokenA
                  amountA := "0"
                  tokenB := tokenB
                  amountB := "0"
                  fee := fee
                  sqrtRatioX96 := "79228162514264337593543950336"
                  tickCurrent := 0
                  liquidity := "0" }]
    | _, _ => pools
  else pools

/-- This module's `parsePoolCreationEvents(logs, mirrorNodeUrl)`. -/
def parsePoolCreationEvents (logs : List RawLog) (ft : String → Option ApiToken) :
    List ApiLiquidityPoolV2 :=
  logs.foldl (processLog ft) []

/-- The first mock token of `mockPoolsData` (HBAR). -/
def mockHbarToken : ApiToken :=
  { decimals := some 8, id := some "0.0.456789", name := some "Hedera Hashgraph"
    price := "100000000", symbol := some "HBAR"
    description := some "Native token of Hedera network" }

/-- The second mock token of `mockPoolsData` (SAUCE). -/
def mockSauceToken : ApiToken :=
  { decimals := some 6, id := some "0.0.731861", name := some "SaucerSwap"
    price := "36806544", symbol := some "SAUCE"
    description := some "SaucerSwap governance token" }

/-- The fixed demo dataset `mockPoolsData` used by demo mode and the
fallbacks. -/
def mockPoolsData : List ApiLiquidityPoolV2 :=
  [{ id := 1
     contractId := "0.0.123456"
     tokenA := mockHbarToken
     amountA := "1000000000000"
     tokenB := mockSauceToken
     amountB := "500000000000"
     fee := some 3000
     sqrtRatioX96 := "79228162514264337593543950336"
     tickCurrent := 0
     liquidity := "1000000000000000000" }]

/-- The `SAUCERSWAP_V2_FACTORY_CONTRACTS` table; `previewnet` maps to `null`
and any other unknown key to `undefined`, both modelled as `none`. -/
def saucerswapV2FactoryContracts (network : String) : Option String :=
  if network = "mainnet" then some "0.0.3946833"
  else if network = "testnet" then some "0.0.1197038"
  else none

/-- The default mirror-node URL of the `switch` in
`getHederaMirrorNodeUrl`. -/
def mirrorNodeUrlFor (network : String) : String :=
  if network = "testnet" then "https://testnet.mirrornode.hedera.com"
  else if network = "previewnet" then "https://previewnet.mirrornode.hedera.com"
  else "https://mainnet.mirrornode.hedera.com"

/-- `getHederaMirrorNodeUrl(network, baseUrl)`: a custom base URL wins unless
it is falsy or the mainnet default. -/
def getHederaMirrorNodeUrl (network : String) (baseUrl : Option String) : String :=
  match baseUrl with
  | some url =>
    if url = "" ∨ url = "https://mainnet.mirrornode.hedera.com" then mirrorNodeUrlFor network
    else url
  | none => mirrorNodeUrlFor network

/-- The pools and data-source label computed by the FETCH_ALL_POOLS
handler. -/
structure PoolsResult where
  pools : List ApiLiquidityPoolV2
  dataSource : String
deriving DecidableEq

/-- The FETCH_ALL_POOLS handler of `src/src/plugin.ts`.  Inputs: the three
settings, the log-fetch outcome and the token-metadata fetch.  Demo mode
(`DEMO_MODE === 'true'`) and an unsupported network short-circuit to the mock
data before any request is made; the inner `try/catch` replaces a log-fetch
failure by the mock data with an error-noting label; an empty parse result is
likewise replaced by the mock data. -/
def fetchAllPoolsAction_run (networkSetting mirrorUrlSetting demoModeSetting : Option String)
    (logFetch : FetchOutcome) (ft : String → Option ApiToken) : PoolsResult :=
  let network := networkSetting.getD "mainnet"
  let demoMode := demoModeSetting = some "true"
  if demoMode then
    { pools := mockPoolsData, dataSource := "Demo Mode (Mock Data)" }
  else
    let hederaApiUrl := getHederaMirrorNodeUrl network mirrorUrlSetting
    match saucerswapV2FactoryContracts network with
    | none =>
      { pools := mockPoolsData
        dataSource := "Demo Mode (" ++ network ++ " not supported)" }
    | some _factoryContract =>
      match logFetch with
      | FetchOutcome.failure =>
        { pools := mockPoolsData
          dataSource := "Hedera Mirror Node (" ++ hederaApiUrl
            ++ ") - Error fetching data, using mock data" }
      | FetchOutcome.success logs =>
        let pools := parsePoolCreationEvents logs ft
        if pools.length = 0 then
          { pools := mockPoolsData
            dataSource := "Hedera Mirror Node (" ++ hederaApiUrl
              ++ ") - No pools found, using mock data" }
        else
          { pools := pools
            dataSource := "Hedera Mirror Node (" ++ hederaApiUrl ++ ") - "
              ++ natToString pools.length ++ " pools from contract events" }

end SrcPlugin

/-! ## Concrete scenario inputs used by witnesses and counterexamples -/

/-- Event topic whose last 4 bytes encode entity number 1. -/
def topicOne : String :=
  "0x0000000000000000000000000000000000000000000000000000000000000001"

/-- Event topic whose last 4 bytes encode entity number 2. -/
def topicTwo : String :=
  "0x0000000000000000000000000000000000000000000000000000000000000002"

/-- Event topic whose last 4 bytes encode entity number 7. -/
def topicSeven : String :=
  "0x0000000000000000000000000000000000000000000000000000000000000007"

/-- Fee topic decoding to 3000 (hex `bb8`). -/
def feeTopic3000 : String :=
  "0x0000000000000000000000000000000000000000000000000000000000000bb8"

/-- A pool-created log entry for token entities 1 and 2 with fee 3000 (the
shape the repository's own integration test uses). -/
def sampleLog : RawLog :=
  { topics := [POOL_CREATED_TOPIC, topicOne, topicTwo, feeTopic3000]
    data := "0x0000000000000000000000000000000000000000000000000000000000000020" }

/-- Metadata of the first sample token. -/
def sampleTokenA : HederaDex.ApiToken :=
  { decimals := 8, id := "0.0.1", name := "Wrapped HBAR", price := "0"
    symbol := "WHBAR", description := none }

/-- Metadata of the second sample token. -/
def sampleTokenB : HederaDex.ApiToken :=
  { decimals := 6, id := "0.0.2", name := "USD Coin", price := "0"
    symbol := "USDC", description := none }

/-- A token fetch that succeeds exactly on the two sample token ids. -/
def sampleFetch : String → Option HederaDex.ApiToken := fun id =>
  if id = "0.0.1" then some sampleTokenA
  else if id = "0.0.2" then some sampleTokenB
  else none

/-- The pool record the `HederaDex` pipeline assembles from `sampleLog` and
`sampleFetch`. -/
def sampleRecord : HederaDex.ApiLiquidityPoolV2 :=
  { id := 1, contractId := "0.0.1000003", tokenA := sampleTokenA, amountA := "0"
    tokenB := sampleTokenB, amountB := "0", fee := some 3000
    sqrtRatioX96 := "79228162514264337593543950336", tickCurrent := 0
    liquidity := "Available" }

/-- Metadata of the first sample token in the `SrcPlugin` shape. -/
def srcSampleTokenA : SrcPlugin.ApiToken :=
  { decimals := some 8, id := some "0.0.1", name := some "Wrapped HBAR"
    price := "0", symbol := some "WHBAR", description := none }

/-- Metadata of the second sample token in the `SrcPlugin` shape. -/
def srcSampleTokenB : SrcPlugin.ApiToken :=
  { decimals := some 6, id := some "0.0.2", name := some "USD Coin"
    price := "0", symbol := some "USDC", description := none }

/-- A `SrcPlugin` token fetch succeeding exactly on the two sample ids. -/
def srcSampleFetch : String → Option SrcPlugin.ApiToken := fun id =>
  if id = "0.0.1" then some srcSampleTokenA
  else if id = "0.0.2" then some srcSampleTokenB
  else none

/-- The pool record the `SrcPlugin` pipeline assembles from `sampleLog` and
`srcSampleFetch` (its data field is too short for the address slice, so the
contract id decodes to the `NaN` string). -/
def srcSampleRecord : SrcPlugin.ApiLiquidityPoolV2 :=
  { id := 1, contractId := "0.0.NaN", tokenA := srcSampleTokenA, amountA := "0"
    tokenB := srcSampleTokenB, amountB := "0", fee := some 3000
    sqrtRatioX96 := "79228162514264337593543950336", tickCurrent := 0
    liquidity := "0" }

/-- A pool-created log entry whose two token topics are identical. -/
def duplicateTokenLog : RawLog :=
  { topics := [POOL_CREATED_TOPIC, topicSeven, topicSeven, feeTopic3000]
    data := "0x0000000000000000000000000000000000000000000000000000000000000020" }

/-- Metadata for token `0.0.7`. -/
def sampleTokenSeven : HederaDex.ApiToken :=
  { decimals := 8, id := "0.0.7", name := "Token Seven", price := "0"
    symbol := "TOK7", description := none }

/-- A token fetch succeeding exactly on `0.0.7`. -/
def sevenFetch : String → Option HederaDex.ApiToken := fun id =>
  if id = "0.0.7" then some sampleTokenSeven else none

/-- A log entry that is not a pool-created event (wrong signature topic). -/
def unrelatedLog : RawLog :=
  { topics := ["0xdeadbeef"], data := "0x00" }

/-- 64 zero hex characters: a topic whose entity number decodes to 0. -/
def zeroChars64 : List Char := List.replicate 64 '0'

/-- The all-zero 32-byte topic. -/
def zeroTopic : String := String.mk ('0' :: 'x' :: zeroChars64)

/-- A pool-created log entry whose token topics decode to the invalid entity
number 0. -/
def zeroEntityLog : RawLog :=
  { topics := [POOL_CREATED_TOPIC, zeroTopic, zeroTopic, feeTopic3000]
    data := "0x00" }

/-- A mirror-node token payload with no `decimals` and no `name` but a
`symbol`. -/
def sparsePayload : TokenPayload :=
  { decimals := none, name := none, symbol := some "SAUCE"
    token_id := none, memo := none }

/-! ## General lemmas about the string and number helpers -/

theorem natToStringCore_length (fuel : Nat) :
    ∀ (n : Nat) (acc : List Char), n < fuel →
      acc.length < (natToStringCore fuel n acc).length := by
  induction fuel with
  | zero => intro n acc h; omega
  | succ f ih =>
    intro n acc h
    simp only [natToStringCore]
    split
    · simp
    · have hn : 10 ≤ n := by omega
      have hdiv : n / 10 < n := Nat.div_lt_self (by omega) (by omega)
      have := ih (n / 10) (digitChar (n % 10) :: acc) (by omega)
      simp at this
      omega

theorem natToString_ne_zero_str {n : Nat} (h : n ≠ 0) : natToString n ≠ "0" := by
  unfold natToString
  by_cases h10 : n < 10
  · have h1 : 1 ≤ n := by omega
    have h9 : n ≤ 9 := by omega
    interval_cases n <;> decide
  · intro hc
    have hstep : natToStringCore (n + 1) n [] =
        natToStringCore n (n / 10) [digitChar (n % 10)] := by
      simp only [natToStringCore]
      rw [if_neg h10]
    have hdiv : n / 10 < n := Nat.div_lt_self (by omega) (by omega)
    have hlen := natToStringCore_length n (n / 10) [digitChar (n % 10)] hdiv
    simp only [List.length_cons, List.length_nil] at hlen
    rw [hstep] at hc
    have hl2 : (natToStringCore n (n / 10) [digitChar (n % 10)]).length
        = ("0" : String).data.length := congrArg (fun s => s.data.length) hc
    have hone : ("0" : String).data.length = 1 := by decide
    omega

theorem string_append_left_cancel {a x y : String} (h : a ++ x = a ++ y) : x = y := by
  have h2 := congrArg String.data h
  simp only [String.data_append] at h2
  exact String.ext (List.append_cancel_left h2)

theorem lastChars_length (n : Nat) (l : List Char) :
    (lastChars n l).length = min n l.length := by
  simp [lastChars]
  omega

theorem lastChars_cons (c : Char) (l : List Char) (h : 8 ≤ l.length) :
    lastChars 8 (c :: l) = lastChars 8 l := by
  simp only [lastChars, List.length_cons]
  have h8 : l.length + 1 - 8 = (l.length - 8) + 1 := by omega
  rw [h8, List.drop_succ_cons]

theorem hexDigitVal_ne_x {c : Char} (h : (hexDigitVal c).isSome = true) :
    c ≠ 'x' ∧ c ≠ 'X' := by
  constructor <;> rintro rfl <;> simp [hexDigitVal] at h

theorem replaceFirst0x_of_no_x :
    ∀ (l : List Char), (∀ c ∈ l, c ≠ 'x') → replaceFirst0x l = l := by
  intro l
  induction l with
  | nil => intro _; rfl
  | cons c1 t ih =>
    intro h
    cases t with
    | nil => rfl
    | cons c2 rest =>
      simp only [replaceFirst0x]
      rw [if_neg]
      · rw [ih (fun c hc => h c (List.mem_cons_of_mem _ hc))]
      · rintro ⟨_, hx⟩
        exact h c2 (by simp) hx

theorem strip0xPrefixJS_of_hex (l : List Char)
    (h : ∀ c ∈ l, (hexDigitVal c).isSome = true) : strip0xPrefixJS l = l := by
  cases l with
  | nil => rfl
  | cons c1 t =>
    cases t with
    | nil => rfl
    | cons c2 rest =>
      simp only [strip0xPrefixJS]
      rw [if_neg]
      rintro ⟨_, hx⟩
      have h2 := hexDigitVal_ne_x (h c2 (by simp))
      rcases hx with hx | hx
      · exact h2.1 hx
      · exact h2.2 hx

theorem parseIntHex_of_hex (l : List Char) (hne : l ≠ [])
    (h : ∀ c ∈ l, (hexDigitVal c).isSome = true) :
    parseIntHex l = some (parseHexDigits l 0) := by
  unfold parseIntHex
  rw [strip0xPrefixJS_of_hex l h]
  cases l with
  | nil => exact absurd rfl hne
  | cons c rest =>
    simp only
    rw [if_pos (h c (by simp))]

theorem mem_lastChars_of_le {l : List Char} {c : Char}
    (hc : c ∈ l) (hidx : l.length ≤ 8) : c ∈ lastChars 8 l := by
  unfold lastChars
  have h0 : l.length - 8 = 0 := by omega
  rw [h0, List.drop_zero]
  exact hc

theorem mem_lastChars_cons2 {c1 c2 : Char} {rest : List Char}
    (h : rest.length ≤ 7) : c2 ∈ lastChars 8 (c1 :: c2 :: rest) := by
  unfold lastChars
  rcases Nat.lt_or_ge rest.length 7 with h7 | h7
  · have h0 : (c1 :: c2 :: rest).length - 8 = 0 := by simp; omega
    rw [h0, List.drop_zero]
    simp
  · have h1 : (c1 :: c2 :: rest).length - 8 = 1 := by simp; omega
    rw [h1, List.drop_succ_cons, List.drop_zero]
    simp

theorem lastChars_replaceFirst0x_aux :
    ∀ (l : List Char),
      (∀ c ∈ lastChars 8 l, (hexDigitVal c).isSome = true) →
      lastChars 8 l ≠ [] →
      lastChars 8 (replaceFirst0x l) = lastChars 8 l := by
  intro l
  induction l with
  | nil => intro _ hne; exact absurd rfl hne
  | cons c1 t ih =>
    intro hhex hne
    cases t with
    | nil => rfl
    | cons c2 rest =>
      by_cases h0x : c1 = '0' ∧ c2 = 'x'
      · -- the first two characters are the removed occurrence of `0x`
        have hrw : replaceFirst0x (c1 :: c2 :: rest) = rest := by
          simp only [replaceFirst0x]
          rw [if_pos h0x]
        rw [hrw]
        -- the suffix cannot reach the removed `x`, so `rest` is long enough
        have hrest : 8 ≤ rest.length := by
          by_contra hshort
          have hxmem : c2 ∈ lastChars 8 (c1 :: c2 :: rest) :=
            mem_lastChars_cons2 (by omega)
          have := hexDigitVal_ne_x (hhex c2 hxmem)
          exact this.1 h0x.2
        rw [lastChars_cons c1 (c2 :: rest) (by simp; omega),
          lastChars_cons c2 rest hrest]
      · have hrw : replaceFirst0x (c1 :: c2 :: rest) =
            c1 :: replaceFirst0x (c2 :: rest) := by
          simp only [replaceFirst0x]
          rw [if_neg h0x]
        rw [hrw]
        by_cases hlen : 8 ≤ (c2 :: rest).length
        · have hsfx : lastChars 8 (c1 :: c2 :: rest) = lastChars 8 (c2 :: rest) :=
            lastChars_cons c1 (c2 :: rest) hlen
          rw [hsfx] at hhex hne ⊢
          have hih := ih hhex hne
          have hwlen : 8 ≤ (replaceFirst0x (c2 :: rest)).length := by
            have h1 := lastChars_length 8 (replaceFirst0x (c2 :: rest))
            have h2 := lastChars_length 8 (c2 :: rest)
            rw [hih] at h1
            omega
          rw [lastChars_cons c1 _ hwlen]
          exact hih
        · -- the whole list is the suffix: it is all-hex, hence `0x`-free
          have hwhole : ∀ c ∈ c1 :: c2 :: rest, (hexDigitVal c).isSome = true := by
            intro c hc
            exact hhex c (mem_lastChars_of_le hc (by simp at hlen ⊢; omega))
          have hnox : replaceFirst0x (c2 :: rest) = c2 :: rest := by
            apply replaceFirst0x_of_no_x
            intro c hc
            exact (hexDigitVal_ne_x (hwhole c (List.mem_cons_of_mem _ hc))).1
          rw [hnox]

theorem lastChars_replaceFirst0x (l : List Char)
    (hhex : ∀ c ∈ lastChars 8 (stripHexPrefix l), (hexDigitVal c).isSome = true)
    (hne : lastChars 8 (stripHexPrefix l) ≠ []) :
    lastChars 8 (replaceFirst0x l) = lastChars 8 (stripHexPrefix l) := by
  cases l with
  | nil => exact absurd rfl hne
  | cons c1 t =>
    cases t with
    | nil => rfl
    | cons c2 rest =>
      by_cases h0x : c1 = '0' ∧ c2 = 'x'
      · have h1 : replaceFirst0x (c1 :: c2 :: rest) = rest := by
          simp only [replaceFirst0x]; rw [if_pos h0x]
        have h2 : stripHexPrefix (c1 :: c2 :: rest) = rest := by
          simp only [stripHexPrefix]; rw [if_pos h0x]
        rw [h1, h2]
      · have h2 : stripHexPrefix (c1 :: c2 :: rest) = c1 :: c2 :: rest := by
          simp only [stripHexPrefix]; rw [if_neg h0x]
        rw [h2] at hhex hne
        rw [h2]
        exact lastChars_replaceFirst0x_aux (c1 :: c2 :: rest) hhex hne

/-- Under the hypotheses of claim C10, `hexToHederaId` is a function of the
last eight characters of the input after prefix removal. -/
theorem hexToHederaId_eq_ofSuffix (s : String)
    (hhex : ∀ c ∈ lastChars 8 (stripHexPrefix s.toList), (hexDigitVal c).isSome = true)
    (hne : lastChars 8 (stripHexPrefix s.toList) ≠ []) :
    HederaDex.hexToHederaId s =
      (if parseHexDigits (lastChars 8 (stripHexPrefix s.toList)) 0 = 0 ∨
          parseHexDigits (lastChars 8 (stripHexPrefix s.toList)) 0 > 100000000
       then "0.0.0"
       else "0.0." ++ natToString (parseHexDigits (lastChars 8 (stripHexPrefix s.toList)) 0)) := by
  simp only [HederaDex.hexToHederaId]
  rw [lastChars_replaceFirst0x s.toList hhex hne,
    parseIntHex_of_hex _ hne hhex]

/-! ## Lemmas about the decoding pipelines -/

theorem foldl_skip {α β : Type} (f : β → α → β) (x : α)
    (h : ∀ b, f b x = b) (l1 l2 : List α) (init : β) :
    List.foldl f init (l1 ++ x :: l2) = List.foldl f init (l1 ++ l2) := by
  simp [List.foldl_append, h]

theorem hederaDex_processLog_not_guard (ft : String → Option HederaDex.ApiToken)
    (log : RawLog)
    (h : ¬(log.topics.head? = some POOL_CREATED_TOPIC ∧ 4 ≤ log.topics.length)) :
    ∀ pools, HederaDex.processLog ft pools log = pools := by
  intro pools
  simp only [HederaDex.processLog]
  rw [if_neg h]

theorem srcPlugin_processLog_not_guard (ft : String → Option SrcPlugin.ApiToken)
    (log : RawLog)
    (h : ¬(log.topics.head? = some POOL_CREATED_TOPIC ∧ 4 ≤ log.topics.length)) :
    ∀ pools, SrcPlugin.processLog ft pools log = pools := by
  intro pools
  simp only [SrcPlugin.processLog]
  rw [if_neg h]

theorem hederaDex_processLog_sentinel (ft : String → Option HederaDex.ApiToken)
    (log : RawLog)
    (hg : log.topics.head? = some POOL_CREATED_TOPIC ∧ 4 ≤ log.topics.length)
    (hs : HederaDex.hexToHederaId (log.topics.getD 1 "") = "0.0.0"
      ∨ HederaDex.hexToHederaId (log.topics.getD 2 "") = "0.0.0"
      ∨ HederaDex.extractPoolContractId log.data
          (HederaDex.hexToHederaId (log.topics.getD 1 ""))
          (HederaDex.hexToHederaId (log.topics.getD 2 "")) = "0.0.0") :
    ∀ pools, HederaDex.processLog ft pools log = pools := by
  intro pools
  simp only [HederaDex.processLog]
  rw [if_pos hg, if_pos hs]

theorem hederaDex_mem_processLog {ft : String → Option HederaDex.ApiToken}
    {pools : List HederaDex.ApiLiquidityPoolV2} {log : RawLog}
    {q : HederaDex.ApiLiquidityPoolV2}
    (hq : q ∈ HederaDex.processLog ft pools log) :
    q ∈ pools ∨ ∃ i0 i1, ft i0 = some q.tokenA ∧ ft i1 = some q.tokenB := by
  by_cases hg : log.topics.head? = some POOL_CREATED_TOPIC ∧ 4 ≤ log.topics.length
  · simp only [HederaDex.processLog, if_pos hg] at hq
    by_cases hs : HederaDex.hexToHederaId (log.topics.getD 1 "") = "0.0.0"
      ∨ HederaDex.hexToHederaId (log.topics.getD 2 "") = "0.0.0"
      ∨ HederaDex.extractPoolContractId log.data
          (HederaDex.hexToHederaId (log.topics.getD 1 ""))
          (HederaDex.hexToHederaId (log.topics.getD 2 "")) = "0.0.0"
    · rw [if_pos hs] at hq
      exact Or.inl hq
    · rw [if_neg hs] at hq
      cases hft0 : ft (HederaDex.hexToHederaId (log.topics.getD 1 "")) with
      | none => rw [hft0] at hq; exact Or.inl hq
      | some tokenA =>
        cases hft1 : ft (HederaDex.hexToHederaId (log.topics.getD 2 "")) with
        | none => rw [hft0, hft1] at hq; exact Or.inl hq
        | some tokenB =>
          rw [hft0, hft1] at hq
          rcases List.mem_append.mp hq with hmem | hmem
          · exact Or.inl hmem
          · rcases List.mem_singleton.mp hmem with rfl
            exact Or.inr ⟨_, _, hft0, hft1⟩
  · rw [hederaDex_processLog_not_guard ft log hg] at hq
    exact Or.inl hq

theorem srcPlugin_mem_processLog {ft : String → Option SrcPlugin.ApiToken}
    {pools : List SrcPlugin.ApiLiquidityPoolV2} {log : RawLog}
    {q : SrcPlugin.ApiLiquidityPoolV2}
    (hq : q ∈ SrcPlugin.processLog ft pools log) :
    q ∈ pools ∨ ∃ i0 i1, ft i0 = some q.tokenA ∧ ft i1 = some q.tokenB := by
  by_cases hg : log.topics.head? = some POOL_CREATED_TOPIC ∧ 4 ≤ log.topics.length
  · simp only [SrcPlugin.processLog, if_pos hg] at hq
    cases hft0 : ft (SrcPlugin.hexToHederaId (log.topics.getD 1 "")) with
    | none => rw [hft0] at hq; exact Or.inl hq
    | some tokenA =>
      cases hft1 : ft (SrcPlugin.hexToHederaId (log.topics.getD 2 "")) with
      | none => rw [hft0, hft1] at hq; exact Or.inl hq
      | some tokenB =>
        rw [hft0, hft1] at hq
        rcases List.mem_append.mp hq with hmem | hmem
        · exact Or.inl hmem
        · rcases List.mem_singleton.mp hmem with rfl
          exact Or.inr ⟨_, _, hft0, hft1⟩
  · rw [srcPlugin_processLog_not_guard ft log hg] at hq
    exact Or.inl hq

theorem hederaDex_mem_foldl {ft : String → Option HederaDex.ApiToken} :
    ∀ (logs : List RawLog) (acc : List HederaDex.ApiLiquidityPoolV2)
      (p : HederaDex.ApiLiquidityPoolV2),
      p ∈ List.foldl (HederaDex.processLog ft) acc logs →
      p ∈ acc ∨ ∃ i0 i1, ft i0 = some p.tokenA ∧ ft i1 = some p.tokenB := by
  intro logs
  induction logs with
  | nil => intro acc p hp; exact Or.inl hp
  | cons log rest ih =>
    intro acc p hp
    rcases ih (HederaDex.processLog ft acc log) p hp with h | h
    · exact hederaDex_mem_processLog h
    · exact Or.inr h

theorem srcPlugin_mem_foldl {ft : String → Option SrcPlugin.ApiToken} :
    ∀ (logs : List RawLog) (acc : List SrcPlugin.ApiLiquidityPoolV2)
      (p : SrcPlugin.ApiLiquidityPoolV2),
      p ∈ List.foldl (SrcPlugin.processLog ft) acc logs →
      p ∈ acc ∨ ∃ i0 i1, ft i0 = some p.tokenA ∧ ft i1 = some p.tokenB := by
  intro logs
  induction logs with
  | nil => intro acc p hp; exact Or.inl hp
  | cons log rest ih =>
    intro acc p hp
    rcases ih (SrcPlugin.processLog ft acc log) p hp with h | h
    · exact srcPlugin_mem_processLog h
    · exact Or.inr h

/-- For a `0x`-prefixed topic whose remaining characters are hexadecimal,
`hexToHederaId` is the sentinel test applied to the value of the last eight
characters. -/
theorem hexToHederaId_topic (t : List Char) (hlen : 8 ≤ t.length)
    (hhex : ∀ c ∈ t, (hexDigitVal c).isSome = true) :
    HederaDex.hexToHederaId (String.mk ('0' :: 'x' :: t)) =
      (if parseHexDigits (lastChars 8 t) 0 = 0 ∨
          parseHexDigits (lastChars 8 t) 0 > 100000000
       then "0.0.0"
       else "0.0." ++ natToString (parseHexDigits (lastChars 8 t) 0)) := by
  simp only [HederaDex.hexToHederaId]
  have h1 : (String.mk ('0' :: 'x' :: t)).toList = '0' :: 'x' :: t := rfl
  rw [h1]
  have h2 : replaceFirst0x ('0' :: 'x' :: t) = t := by
    simp [replaceFirst0x]
  rw [h2]
  have hne : lastChars 8 t ≠ [] := by
    have hl := lastChars_length 8 t
    intro hc
    rw [hc] at hl
    simp at hl
    omega
  rw [parseIntHex_of_hex _ hne (fun c hc => hhex c (List.drop_subset _ _ hc))]

/-! ## The claims -/

/-- Claim C7: a raw log entry whose first topic differs from the pool-created
event signature, or that has fewer than four topics, contributes no record in
either implementation of the Log Decoder; the batch decodes exactly as if the
entry were absent, and no error is raised (the decoders are total
functions). -/
theorem claim_C7_unrelated_entries_skipped
    (l1 l2 : List RawLog) (log : RawLog)
    (ftD : String → Option HederaDex.ApiToken)
    (ftS : String → Option SrcPlugin.ApiToken)
    (h : log.topics.head? ≠ some POOL_CREATED_TOPIC ∨ log.topics.length < 4) :
    HederaDex.parsePoolCreationEvents (l1 ++ log :: l2) ftD
      = HederaDex.parsePoolCreationEvents (l1 ++ l2) ftD
    ∧ SrcPlugin.parsePoolCreationEvents (l1 ++ log :: l2) ftS
      = SrcPlugin.parsePoolCreationEvents (l1 ++ l2) ftS := by
  have hng : ¬(log.topics.head? = some POOL_CREATED_TOPIC ∧ 4 ≤ log.topics.length) := by
    rcases h with h | h
    · exact fun hc => h hc.1
    · exact fun hc => absurd hc.2 (by omega)
  exact ⟨foldl_skip _ _ (hederaDex_processLog_not_guard ftD log hng) l1 l2 [],
    foldl_skip _ _ (srcPlugin_processLog_not_guard ftS log hng) l1 l2 []⟩

/-- Witness for C7: a concrete entry with an unrelated signature topic is
skipped by both decoders. -/
theorem claim_C7_witness :
    HederaDex.parsePoolCreationEvents ([] ++ unrelatedLog :: []) (fun _ => none)
      = HederaDex.parsePoolCreationEvents ([] ++ []) (fun _ => none)
    ∧ SrcPlugin.parsePoolCreationEvents ([] ++ unrelatedLog :: []) (fun _ => none)
      = SrcPlugin.parsePoolCreationEvents ([] ++ []) (fun _ => none) :=
  claim_C7_unrelated_entries_skipped [] [] unrelatedLog (fun _ => none) (fun _ => none)
    (Or.inr (by decide))

/-- Claim C2 (amended): every record either pipeline emits carries exactly
the results of two successful token-metadata fetches — a candidate for which
either fetch failed is dropped, never emitted partially.  (The claim's other
conjunct, that the two token identifiers always differ, is false: see the
counterexample.) -/
theorem claim_C2_no_partial_records
    (logs : List RawLog)
    (ftD : String → Option HederaDex.ApiToken)
    (ftS : String → Option SrcPlugin.ApiToken)
    (pD : HederaDex.ApiLiquidityPoolV2) (pS : SrcPlugin.ApiLiquidityPoolV2) :
    (pD ∈ HederaDex.parsePoolCreationEvents logs ftD →
      ∃ i0 i1, ftD i0 = some pD.tokenA ∧ ftD i1 = some pD.tokenB)
    ∧ (pS ∈ SrcPlugin.parsePoolCreationEvents logs ftS →
      ∃ i0 i1, ftS i0 = some pS.tokenA ∧ ftS i1 = some pS.tokenB) := by
  constructor
  · intro hp
    rcases hederaDex_mem_foldl logs [] pD hp with h | h
    · simp at h
    · exact h
  · intro hp
    rcases srcPlugin_mem_foldl logs [] pS hp with h | h
    · simp at h
    · exact h

/-- Witness for C2 at the concrete sample batch: the emitted record's two
tokens are successful fetch results in both pipelines. -/
theorem claim_C2_witness :
    (∃ i0 i1, sampleFetch i0 = some sampleRecord.tokenA
      ∧ sampleFetch i1 = some sampleRecord.tokenB)
    ∧ (∃ i0 i1, srcSampleFetch i0 = some srcSampleRecord.tokenA
      ∧ srcSampleFetch i1 = some srcSampleRecord.tokenB) :=
  ⟨(claim_C2_no_partial_records [sampleLog] sampleFetch srcSampleFetch
      sampleRecord srcSampleRecord).1 (by decide),
   (claim_C2_no_partial_records [sampleLog] sampleFetch srcSampleFetch
      sampleRecord srcSampleRecord).2 (by decide)⟩

/-- Counterexample to C2 as stated: a pool-created entry whose two token
topics are identical (both decoding to entity `0.0.7`) passes every check of
the pipeline and is emitted with `tokenA` and `tokenB` carrying the same
identifier — the decoder never compares the two identifiers. -/
theorem claim_C2_counterexample :
    (HederaDex.parsePoolCreationEvents [duplicateTokenLog] sevenFetch).map
      (fun p => (p.tokenA.id, p.tokenB.id)) = [("0.0.7", "0.0.7")] := by
  decide

/-- Claim C3: on a 32-byte topic of hexadecimal characters the entity-number
decoder takes the value of the final 8 hex characters (last 4 bytes) and maps
it to the sentinel `0.0.0` exactly when that value is 0 or exceeds
100,000,000; and any matching entry one of whose decoded ids (token0, token1
or pool) equals the sentinel is dropped while the rest of the batch is
decoded as if the entry were absent. -/
theorem claim_C3_entity_number_decoding (t : List Char) (hlen : t.length = 64)
    (hhex : ∀ c ∈ t, (hexDigitVal c).isSome = true)
    (ft : String → Option HederaDex.ApiToken) (l1 l2 : List RawLog) (log : RawLog)
    (hg0 : log.topics.head? = some POOL_CREATED_TOPIC)
    (hg1 : 4 ≤ log.topics.length)
    (hsent : HederaDex.hexToHederaId (log.topics.getD 1 "") = "0.0.0"
      ∨ HederaDex.hexToHederaId (log.topics.getD 2 "") = "0.0.0"
      ∨ HederaDex.extractPoolContractId log.data
          (HederaDex.hexToHederaId (log.topics.getD 1 ""))
          (HederaDex.hexToHederaId (log.topics.getD 2 "")) = "0.0.0") :
    (HederaDex.hexToHederaId (String.mk ('0' :: 'x' :: t)) = "0.0.0"
      ↔ (parseHexDigits (lastChars 8 t) 0 = 0 ∨
          parseHexDigits (lastChars 8 t) 0 > 100000000))
    ∧ HederaDex.parsePoolCreationEvents (l1 ++ log :: l2) ft
        = HederaDex.parsePoolCreationEvents (l1 ++ l2) ft := by
  constructor
  · rw [hexToHederaId_topic t (by omega) hhex]
    constructor
    · intro hid
      by_contra hcond
      rw [if_neg hcond] at hid
      have hn0 : parseHexDigits (lastChars 8 t) 0 ≠ 0 := fun hc => hcond (Or.inl hc)
      have : natToString (parseHexDigits (lastChars 8 t) 0) = "0" :=
        string_append_left_cancel (x := natToString (parseHexDigits (lastChars 8 t) 0))
          (y := "0") (a := "0.0.") (by rw [hid]; decide)
      exact natToString_ne_zero_str hn0 this
    · intro hcond
      rw [if_pos hcond]
  · exact foldl_skip _ _
      (hederaDex_processLog_sentinel ft log ⟨hg0, hg1⟩ hsent) l1 l2 []

/-- Witness for C3 at the all-zero topic: its entity number is 0, the decoder
yields the sentinel, and a matching entry carrying it is dropped from the
batch. -/
theorem claim_C3_witness :
    (HederaDex.hexToHederaId (String.mk ('0' :: 'x' :: zeroChars64)) = "0.0.0"
      ↔ (parseHexDigits (lastChars 8 zeroChars64) 0 = 0 ∨
          parseHexDigits (lastChars 8 zeroChars64) 0 > 100000000))
    ∧ HederaDex.parsePoolCreationEvents ([] ++ zeroEntityLog :: []) (fun _ => none)
        = HederaDex.parsePoolCreationEvents ([] ++ []) (fun _ => none) :=
  claim_C3_entity_number_decoding zeroChars64 (by decide) (by decide)
    (fun _ => none) [] [] zeroEntityLog (by decide) (by decide)
    (Or.inl (by decide))

/-- Claim C9: for a batch holding one matching entry whose fee topic decodes
to 3000 and whose two token fetches succeed, the assembled record carries
`fee = 3000` unchanged, and the fee displayed as a percentage with two
decimal places is `0.30`. -/
theorem claim_C9_fee_3000 :
    HederaDex.parsePoolCreationEvents [sampleLog] sampleFetch = [sampleRecord]
    ∧ sampleRecord.fee = some 3000
    ∧ (HederaDex.parsePoolCreationEvents [sampleLog] sampleFetch).map
        (fun p => HederaDex.feeTier (p.fee.getD 0)) = ["0.30"] := by
  refine ⟨by decide, rfl, by decide⟩

/-- Splitting the error-fallback label around its occurrence of `mock`. -/
theorem append_split_mock (a : String) :
    a ++ ") - Error fetching data, using mock data"
      = (a ++ ") - Error fetching data, using ") ++ "mock" ++ " data" := by
  have h : (") - Error fetching data, using mock data" : String)
      = ") - Error fetching data, using " ++ ("mock" ++ " data") := by decide
  rw [String.append_assoc, String.append_assoc, ← h]

/-- Claim C4 (amended): the synthetic pool id is a deterministic function of
the two decoded entity numbers that ignores the event data and is symmetric
in the unordered pair — it equals `0.0.` followed by the sum of the two
entity numbers plus 1,000,000.  (Because only the sum enters, two distinct
unordered pairs with equal sums collide; the claim's uniqueness conjunct is
false — see the counterexample.) -/
theorem claim_C4_synthetic_pool_id
    (eventData eventData2 t0 t1 : String) (n0 n1 : Nat)
    (h0 : parseIntJS ((jsSplitDot t0).getD 2 "").toList = some n0)
    (h1 : parseIntJS ((jsSplitDot t1).getD 2 "").toList = some n1) :
    HederaDex.extractPoolContractId eventData t0 t1
      = HederaDex.extractPoolContractId eventData2 t1 t0
    ∧ HederaDex.extractPoolContractId eventData t0 t1
      = "0.0." ++ natToString (n0 + n1 + 1000000) := by
  constructor
  · simp only [HederaDex.extractPoolContractId]
    rw [h0, h1]
    show ("0.0." ++ natToString (n0 + n1 + 1000000) : String)
      = "0.0." ++ natToString (n1 + n0 + 1000000)
    rw [Nat.add_comm n1 n0]
  · simp only [HederaDex.extractPoolContractId]
    rw [h0, h1]

/-- Witness for C4 at the concrete pair of entity numbers 1 and 4. -/
theorem claim_C4_witness :
    HederaDex.extractPoolContractId "0xdata" "0.0.1" "0.0.4"
      = HederaDex.extractPoolContractId "0xother" "0.0.4" "0.0.1"
    ∧ HederaDex.extractPoolContractId "0xdata" "0.0.1" "0.0.4"
      = "0.0." ++ natToString (1 + 4 + 1000000) :=
  claim_C4_synthetic_pool_id "0xdata" "0xother" "0.0.1" "0.0.4" 1 4
    (by decide) (by decide)

/-- Counterexample to C4 as stated: the distinct unordered pairs `{1, 4}` and
`{2, 3}` of valid entity numbers (both within the accepted range
1..100,000,000) have equal sums and therefore receive the same synthetic pool
identifier. -/
theorem claim_C4_counterexample :
    HederaDex.extractPoolContractId "0xdata" "0.0.1" "0.0.4"
      = HederaDex.extractPoolContractId "0xdata" "0.0.2" "0.0.3"
    ∧ ({1, 4} : Finset Nat) ≠ {2, 3}
    ∧ (1 : Nat) ≤ 100000000 ∧ (2 : Nat) ≤ 100000000
    ∧ (3 : Nat) ≤ 100000000 ∧ (4 : Nat) ≤ 100000000 := by
  refine ⟨by decide, by decide, by decide, by decide, by decide, by decide⟩

/-- Claim C5: the FindPool filter keeps exactly the decoded records whose two
uppercased token symbols, as an unordered set, equal the uppercased requested
pair, and swapping the two requested symbols yields the same result list. -/
theorem claim_C5_findPool_filter
    (allPools : List HederaDex.ApiLiquidityPoolV2) (symbolA symbolB : String)
    (p : HederaDex.ApiLiquidityPoolV2) :
    (p ∈ HederaDex.matchingPools allPools (jsToUpperCase symbolA) (jsToUpperCase symbolB) ↔
      p ∈ allPools ∧
        ({jsToUpperCase p.tokenA.symbol, jsToUpperCase p.tokenB.symbol} : Set String)
          = {jsToUpperCase symbolA, jsToUpperCase symbolB})
    ∧ HederaDex.matchingPools allPools (jsToUpperCase symbolA) (jsToUpperCase symbolB)
      = HederaDex.matchingPools allPools (jsToUpperCase symbolB) (jsToUpperCase symbolA) := by
  constructor
  · simp only [HederaDex.matchingPools, List.mem_filter, decide_eq_true_eq,
      Set.pair_eq_pair_iff]
  · simp only [HederaDex.matchingPools]
    apply List.filter_congr
    intro a _
    rw [decide_eq_decide]
    tauto

/-- Claim C8 (amended): a successful token request never fails because of
missing payload fields.  In the `plugin-hedera-dex` fetcher the decimal
precision defaults to 8 when absent while a missing display name falls back
to the fixed string `Unknown Token` (not to the symbol); in the `src/src`
fetcher a missing display name does fall back to the symbol (and decimals
are parsed with no default). -/
theorem claim_C8_token_defaults (tokenId : String) (payload : TokenPayload) :
    (HederaDex.fetchTokenInfo tokenId (some payload)).isSome = true
    ∧ (payload.decimals = none →
        ∃ t, HederaDex.fetchTokenInfo tokenId (some payload) = some t
          ∧ t.decimals = 8)
    ∧ (payload.name = none →
        ∃ t, HederaDex.fetchTokenInfo tokenId (some payload) = some t
          ∧ t.name = "Unknown Token")
    ∧ (SrcPlugin.fetchTokenInfo tokenId (some payload)).isSome = true
    ∧ (payload.name = none →
        ∃ t, SrcPlugin.fetchTokenInfo tokenId (some payload) = some t
          ∧ t.name = payload.symbol) := by
  refine ⟨rfl, ?_, ?_, rfl, ?_⟩
  · intro h
    exact ⟨_, rfl, by simp [HederaDex.fetchTokenInfo, jsOrNat, h]⟩
  · intro h
    exact ⟨_, rfl, by simp [HederaDex.fetchTokenInfo, jsOrStr, h]⟩
  · intro h
    exact ⟨_, rfl, by simp [SrcPlugin.fetchTokenInfo, SrcPlugin.jsOrOptStr, h]⟩

/-- Witness for C8 at a concrete sparse payload (no decimals, no name, a
symbol). -/
theorem claim_C8_witness :
    (HederaDex.fetchTokenInfo "0.0.731861" (some sparsePayload)).isSome = true
    ∧ (∃ t, HederaDex.fetchTokenInfo "0.0.731861" (some sparsePayload) = some t
        ∧ t.decimals = 8)
    ∧ (∃ t, HederaDex.fetchTokenInfo "0.0.731861" (some sparsePayload) = some t
        ∧ t.name = "Unknown Token")
    ∧ (SrcPlugin.fetchTokenInfo "0.0.731861" (some sparsePayload)).isSome = true
    ∧ (∃ t, SrcPlugin.fetchTokenInfo "0.0.731861" (some sparsePayload) = some t
        ∧ t.name = sparsePayload.symbol) :=
  ⟨(claim_C8_token_defaults "0.0.731861" sparsePayload).1,
   (claim_C8_token_defaults "0.0.731861" sparsePayload).2.1 rfl,
   (claim_C8_token_defaults "0.0.731861" sparsePayload).2.2.1 rfl,
   (claim_C8_token_defaults "0.0.731861" sparsePayload).2.2.2.1,
   (claim_C8_token_defaults "0.0.731861" sparsePayload).2.2.2.2 rfl⟩

/-- Counterexample to C8 as stated: for a payload with an absent name and
symbol `SAUCE`, the `plugin-hedera-dex` fetcher succeeds but sets the display
name to `Unknown Token`, not to the symbol. -/
theorem claim_C8_counterexample :
    HederaDex.fetchTokenInfo "0.0.731861" (some sparsePayload)
      = some { decimals := 8, id := "0.0.731861", name := "Unknown Token"
               price := "0", symbol := "SAUCE", description := none }
    ∧ sparsePayload.name = none
    ∧ sparsePayload.symbol = some "SAUCE"
    ∧ ("Unknown Token" : String) ≠ "SAUCE" := by
  refine ⟨rfl, rfl, rfl, by decide⟩

/-- Claim C10: whenever the final 8 characters of the input (after removing
an optional `0x` prefix) are hexadecimal digits, `hexToHederaId` returns
either the sentinel `0.0.0` or `0.0.n` with `0 < n ≤ 100,000,000` (it cannot
throw: the embedding is a total function with no error outcome), and the
result depends only on those final 8 characters. -/
theorem claim_C10_hexToHederaId_total (s : String)
    (hne : lastChars 8 (stripHexPrefix s.toList) ≠ [])
    (hhex : ∀ c ∈ lastChars 8 (stripHexPrefix s.toList), (hexDigitVal c).isSome = true) :
    (HederaDex.hexToHederaId s = "0.0.0"
      ∨ ∃ n : Nat, 0 < n ∧ n ≤ 100000000
          ∧ HederaDex.hexToHederaId s = "0.0." ++ natToString n)
    ∧ ∀ s2 : String,
        lastChars 8 (stripHexPrefix s2.toList) = lastChars 8 (stripHexPrefix s.toList) →
        HederaDex.hexToHederaId s2 = HederaDex.hexToHederaId s := by
  have heq := hexToHederaId_eq_ofSuffix s hhex hne
  constructor
  · rw [heq]
    by_cases hc : parseHexDigits (lastChars 8 (stripHexPrefix s.toList)) 0 = 0 ∨
        parseHexDigits (lastChars 8 (stripHexPrefix s.toList)) 0 > 100000000
    · rw [if_pos hc]
      exact Or.inl rfl
    · rw [if_neg hc]
      push_neg at hc
      exact Or.inr ⟨_, by omega, by omega, rfl⟩
  · intro s2 h2
    have hhex2 : ∀ c ∈ lastChars 8 (stripHexPrefix s2.toList),
        (hexDigitVal c).isSome = true := by
      rw [h2]; exact hhex
    have hne2 : lastChars 8 (stripHexPrefix s2.toList) ≠ [] := by
      rw [h2]; exact hne
    rw [hexToHederaId_eq_ofSuffix s2 hhex2 hne2, heq, h2]

/-- Witness for C10 at the input `0x0000000a`, together with a second input
sharing the same final 8 characters. -/
theorem claim_C10_witness :
    (HederaDex.hexToHederaId "0x0000000a" = "0.0.0"
      ∨ ∃ n : Nat, 0 < n ∧ n ≤ 100000000
          ∧ HederaDex.hexToHederaId "0x0000000a" = "0.0." ++ natToString n)
    ∧ HederaDex.hexToHederaId "000000000000000a" = HederaDex.hexToHederaId "0x0000000a" :=
  ⟨(claim_C10_hexToHederaId_total "0x0000000a" (by decide) (by decide)).1,
   (claim_C10_hexToHederaId_total "0x0000000a" (by decide) (by decide)).2
     "000000000000000a" (by decide)⟩

/-- Claim C1 (amended): the FETCH_ALL_POOLS implementation never raises: on
every log-fetch outcome it returns a non-empty result set with a data-source
label, and on a log-fetch failure the result set is the fixed demo dataset
with a label containing the word `mock`.  The LIST_POOLS implementation of
`plugin-hedera-dex` does not raise either, but on a log-fetch failure it
returns a failure `ActionResult` (error tag `FETCH_POOLS_FAILED`, no pools,
no data source) instead of falling back to the demo dataset. -/
theorem claim_C1_listing_failure_policy :
    (∀ (n u d : Option String) (lf : FetchOutcome)
        (ft : String → Option SrcPlugin.ApiToken),
        (SrcPlugin.fetchAllPoolsAction_run n u d lf ft).pools ≠ [])
    ∧ (∀ (n u d : Option String) (ft : String → Option SrcPlugin.ApiToken) (f : String),
        SrcPlugin.saucerswapV2FactoryContracts (n.getD "mainnet") = some f →
        d ≠ some "true" →
        (SrcPlugin.fetchAllPoolsAction_run n u d FetchOutcome.failure ft).pools
            = SrcPlugin.mockPoolsData
        ∧ ∃ s t, (SrcPlugin.fetchAllPoolsAction_run n u d FetchOutcome.failure ft).dataSource
            = s ++ "mock" ++ t)
    ∧ (∀ (n u d : Option String) (ft : String → Option HederaDex.ApiToken),
        (HederaDex.contractAddresses (n.getD "mainnet")).isSome = true →
        HederaDex.listPoolsAction_run n u d FetchOutcome.failure ft
          = HederaDex.errorResult) := by
  refine ⟨?_, ?_, ?_⟩
  · intro n u d lf ft
    simp only [SrcPlugin.fetchAllPoolsAction_run]
    split
    · exact (by decide : SrcPlugin.mockPoolsData ≠ [])
    · split
      · exact (by decide : SrcPlugin.mockPoolsData ≠ [])
      · split
        · exact (by decide : SrcPlugin.mockPoolsData ≠ [])
        · rename_i logs
          split
          · exact (by decide : SrcPlugin.mockPoolsData ≠ [])
          · rename_i hlen
            intro hc
            apply hlen
            have hc2 : SrcPlugin.parsePoolCreationEvents logs ft = [] := hc
            rw [hc2]
            rfl
  · intro n u d ft f hf hd
    simp only [SrcPlugin.fetchAllPoolsAction_run]
    rw [if_neg hd, hf]
    exact ⟨rfl, _, _, append_split_mock _⟩
  · intro n u d ft h
    rcases Option.isSome_iff_exists.mp h with ⟨pair, hpair⟩
    simp only [HederaDex.listPoolsAction_run]
    cases u with
    | none => simp [Option.orElse, hpair]
    | some url => simp [Option.orElse, hpair]

/-- Witness for C1 at concrete settings (mainnet, no URL override, demo off)
and a failing log fetch. -/
theorem claim_C1_witness :
    (SrcPlugin.fetchAllPoolsAction_run (some "mainnet") none none FetchOutcome.failure
        (fun _ => none)).pools ≠ []
    ∧ ((SrcPlugin.fetchAllPoolsAction_run (some "mainnet") none none FetchOutcome.failure
          (fun _ => none)).pools = SrcPlugin.mockPoolsData
      ∧ ∃ s t, (SrcPlugin.fetchAllPoolsAction_run (some "mainnet") none none
          FetchOutcome.failure (fun _ => none)).dataSource = s ++ "mock" ++ t)
    ∧ HederaDex.listPoolsAction_run (some "mainnet") none none FetchOutcome.failure
        (fun _ => none) = HederaDex.errorResult :=
  ⟨claim_C1_listing_failure_policy.1 (some "mainnet") none none FetchOutcome.failure
      (fun _ => none),
   claim_C1_listing_failure_policy.2.1 (some "mainnet") none none (fun _ => none)
      "0.0.3946833" (by decide) (by decide),
   claim_C1_listing_failure_policy.2.2 (some "mainnet") none none (fun _ => none)
      (by decide)⟩

/-- Counterexample to C1 as stated: on a log-fetch failure the LIST_POOLS
operation of `plugin-hedera-dex` returns a failure result carrying no result
set at all — not the demo dataset, and no data-source label containing
`error` or `mock`. -/
theorem claim_C1_counterexample :
    (HederaDex.listPoolsAction_run (some "mainnet") none none FetchOutcome.failure
        (fun _ => none)).success = false
    ∧ (HederaDex.listPoolsAction_run (some "mainnet") none none FetchOutcome.failure
        (fun _ => none)).pools = none
    ∧ (HederaDex.listPoolsAction_run (some "mainnet") none none FetchOutcome.failure
        (fun _ => none)).dataSource = none := by
  refine ⟨rfl, rfl, rfl⟩

/-- Claim C6 (amended): with the demo flag set (`DEMO_MODE = 'true'`), the
FETCH_ALL_POOLS implementation returns exactly the fixed demo dataset and its
result is independent of every network outcome — no network call can affect
it (the demo branch is taken before any request).  The LIST_POOLS
implementation of `plugin-hedera-dex` never reads the demo flag: its result
is independent of that setting. -/
theorem claim_C6_demo_mode :
    (∀ (n u : Option String) (lf : FetchOutcome)
        (ft : String → Option SrcPlugin.ApiToken),
        SrcPlugin.fetchAllPoolsAction_run n u (some "true") lf ft
          = { pools := SrcPlugin.mockPoolsData, dataSource := "Demo Mode (Mock Data)" })
    ∧ (∀ (n u d1 d2 : Option String) (lf : FetchOutcome)
        (ft : String → Option HederaDex.ApiToken),
        HederaDex.listPoolsAction_run n u d1 lf ft
          = HederaDex.listPoolsAction_run n u d2 lf ft) := by
  constructor
  · intro n u lf ft
    simp [SrcPlugin.fetchAllPoolsAction_run]
  · intro n u d1 d2 lf ft
    rfl

/-- Counterexample to C6 as stated: with the demo flag set to `'true'`, the
LIST_POOLS handler still attempts the log fetch (its outcome changes the
result) and on failure returns a failure result, not any demo dataset. -/
theorem claim_C6_counterexample :
    (HederaDex.listPoolsAction_run (some "mainnet") none (some "true")
        FetchOutcome.failure sampleFetch).pools = none
    ∧ (HederaDex.listPoolsAction_run (some "mainnet") none (some "true")
        FetchOutcome.failure sampleFetch).success = false
    ∧ HederaDex.listPoolsAction_run (some "mainnet") none (some "true")
        (FetchOutcome.success [sampleLog]) sampleFetch
      ≠ HederaDex.listPoolsAction_run (some "mainnet") none (some "true")
        FetchOutcome.failure sampleFetch := by
  refine ⟨rfl, rfl, by decide⟩
